import Mathlib

/-!
Shallow embedding of the IoT-Pertanian repository for specification checking.

The embedding covers:
* the firmware variant `src/IoT_Pertanian.ino` (namespace `FW`): the sensor
  acquisition cycle `startSensorReading`, the watering task
  (`startWatering` / `continueWatering`) and the main `loop` scheduler;
* the firmware variant `src/arduino/IoT_Pertanian.ino` (namespace `Ard`):
  the `controlWatering` routine;
* the ingestion server `src/unnamed/part_000` (namespace `Server`):
  `validateSensorData` and the `POST /api/sensors` route handler.

Hardware and network effects (analog reads, DHT probe results, HTTP status
codes, timer expirations) are modelled as per-tick oracle inputs; `millis()`
timestamps are natural numbers.  The float calibration curve
`convertToCO2PPM` and the LCD text output are not modelled numerically: no
claim depends on their values.  Temperatures and humidities are rationals
(the DHT code only compares them with `0.0` and stores them).
-/

namespace IoTPertanian

/-- The `TaskState` enumeration of both firmware variants. -/
inductive TaskState
  | TASK_IDLE
  | TASK_RUNNING
  | TASK_COMPLETED
  | TASK_FAILED
deriving DecidableEq, Repr

/-- The `SystemState` enumeration of `src/IoT_Pertanian.ino`. -/
inductive SystemState
  | STATE_INIT
  | STATE_READ_SENSORS
  | STATE_EVALUATE_WATERING
  | STATE_WATERING
  | STATE_DISPLAY_DATA
  | STATE_SEND_DATA
  | STATE_ERROR
deriving DecidableEq, Repr

/-- The `ErrorCode` enumeration (identical in both firmware variants). -/
inductive ErrorCode
  | ERROR_NONE
  | ERROR_DHT
  | ERROR_SOIL
  | ERROR_RAIN
  | ERROR_AIR
  | ERROR_LDR
  | ERROR_PUMP
  | ERROR_WIFI
  | ERROR_SERVER
  | ERROR_TIME
  | ERROR_DB
deriving DecidableEq, Repr

/-- Position of an `ErrorCode` in the enumeration; the spec ranks severities
by this fixed enumeration order. -/
def sev : ErrorCode → Nat
  | .ERROR_NONE => 0
  | .ERROR_DHT => 1
  | .ERROR_SOIL => 2
  | .ERROR_RAIN => 3
  | .ERROR_AIR => 4
  | .ERROR_LDR => 5
  | .ERROR_PUMP => 6
  | .ERROR_WIFI => 7
  | .ERROR_SERVER => 8
  | .ERROR_TIME => 9
  | .ERROR_DB => 10

/-- The status classifier `getSensorStatus(value, lowThreshold,
mediumThreshold, invertLogic)` shared by both firmware variants. -/
def getSensorStatus (value lowThreshold mediumThreshold : Int)
    (invertLogic : Bool) : String :=
  if invertLogic then
    if value > mediumThreshold then "LOW"
    else if value > lowThreshold then "MEDIUM"
    else "HIGH"
  else
    if value < lowThreshold then "LOW"
    else if value < mediumThreshold then "MEDIUM"
    else "HIGH"

namespace FW

/-- `SOIL_THRESHOLD` of `src/IoT_Pertanian.ino`. -/
def SOIL_THRESHOLD : Int := 200

/-- `PARTIAL_SOIL_THRESHOLD` of `src/IoT_Pertanian.ino`. -/
def PARTIAL_SOIL_THRESHOLD : Int := 400

/-- `PUMP_TIME_THRESHOLD` (ms) of `src/IoT_Pertanian.ino`. -/
def PUMP_TIME_THRESHOLD : Nat := 180000

/-- `HEAVY_RAIN_THRESHOLD` of `src/IoT_Pertanian.ino`. -/
def HEAVY_RAIN_THRESHOLD : Int := 800

/-- `LIGHT_RAIN_THRESHOLD` of `src/IoT_Pertanian.ino`. -/
def LIGHT_RAIN_THRESHOLD : Int := 990

/-- `SOIL_LOW` display threshold of `src/IoT_Pertanian.ino`. -/
def SOIL_LOW : Int := 200

/-- `SOIL_MEDIUM` display threshold of `src/IoT_Pertanian.ino`. -/
def SOIL_MEDIUM : Int := 400

/-- `RAIN_LOW` display threshold of `src/IoT_Pertanian.ino`. -/
def RAIN_LOW : Int := 990

/-- `RAIN_MEDIUM` display threshold of `src/IoT_Pertanian.ino`. -/
def RAIN_MEDIUM : Int := 890

/-- `MAX_DHT_RETRIES` of `startSensorReading`. -/
def MAX_DHT_RETRIES : Nat := 3

/-- The global `struct SensorData` of `src/IoT_Pertanian.ino`.  The derived
float `airQualityPPM` is omitted (its calibration curve is numeric noise to
every claim); all other fields are kept. -/
structure SensorData where
  temperature : ℚ
  humidity : ℚ
  ldrValue : Int
  rainValue : Int
  airQuality : Int
  soilMoisture : Int
  isValid : Bool
  timestamp : Nat
deriving DecidableEq, Repr

/-- The zero-initialised global `sensorData` at boot. -/
def sensorData0 : SensorData :=
  { temperature := 0, humidity := 0, ldrValue := 0, rainValue := 0
    airQuality := 0, soilMoisture := 0, isValid := false, timestamp := 0 }

/-- The DHT retry loop: successive `readTemperature`/`readHumidity` attempts
(`none` stands for a NaN pair) are tried until one succeeds or the retry
budget is exhausted. -/
def dhtTry : Nat → List (Option (ℚ × ℚ)) → Option (ℚ × ℚ)
  | 0, _ => none
  | _ + 1, [] => none
  | n + 1, r :: rs =>
    match r with
    | some v => some v
    | none => dhtTry n rs

/-- Raw hardware inputs consumed by one acquisition cycle. -/
structure SensorRaw where
  dhtReads : List (Option (ℚ × ℚ))
  newLdrValue : Int
  newRainValue : Int
  newAirQuality : Int
  newSoilMoisture : Int

/-- Outcome of one acquisition cycle. -/
structure SensorCycleResult where
  data : SensorData
  currentError : ErrorCode
  success : Bool
  sensorTaskState : TaskState
deriving DecidableEq, Repr

/-- Intermediate acquisition state threaded through the stages of
`startSensorReading`: the sensor struct being updated, the running
`currentError` and the local `success` flag. -/
structure AcqState where
  sd : SensorData
  err : ErrorCode
  success : Bool
deriving DecidableEq, Repr

/-- The DHT block of `startSensorReading`: retry loop, then either store the
fresh pair and clear `currentError`, or keep previous values (zero-checked
defaults 25.0 / 50.0), set `ERROR_DHT` and drop `success`. -/
def dhtStage (st : AcqState) (reads : List (Option (ℚ × ℚ))) : AcqState :=
  match dhtTry MAX_DHT_RETRIES reads with
  | some th =>
    { st with sd := { st.sd with temperature := th.1, humidity := th.2 }
              err := .ERROR_NONE }
  | none =>
    { st with
        sd := { st.sd with
                  temperature := if st.sd.temperature = 0 then 25 else st.sd.temperature
                  humidity := if st.sd.humidity = 0 then 50 else st.sd.humidity }
        err := .ERROR_DHT, success := false }

/-- The LDR block: range check on `[0, 1023]`, fallback `500` keyed on the
stored value being `0`, error `ERROR_LDR`. -/
def ldrStage (st : AcqState) (newLdrValue : Int) : AcqState :=
  if newLdrValue < 0 ∨ newLdrValue > 1023 then
    { st with sd := { st.sd with
                        ldrValue := if st.sd.ldrValue = 0 then 500 else st.sd.ldrValue }
              err := .ERROR_LDR, success := false }
  else { st with sd := { st.sd with ldrValue := newLdrValue } }

/-- The rain block: range check, fallback `1000` keyed on the stored value
being `1023`, error `ERROR_RAIN`. -/
def rainStage (st : AcqState) (newRainValue : Int) : AcqState :=
  if newRainValue < 0 ∨ newRainValue > 1023 then
    { st with sd := { st.sd with
                        rainValue := if st.sd.rainValue = 1023 then 1000 else st.sd.rainValue }
              err := .ERROR_RAIN, success := false }
  else { st with sd := { st.sd with rainValue := newRainValue } }

/-- The air-quality block: range check, fallback `300` keyed on the stored
value being `0`, error `ERROR_AIR`. -/
def airStage (st : AcqState) (newAirQuality : Int) : AcqState :=
  if newAirQuality < 0 ∨ newAirQuality > 1023 then
    { st with sd := { st.sd with
                        airQuality := if st.sd.airQuality = 0 then 300 else st.sd.airQuality }
              err := .ERROR_AIR, success := false }
  else { st with sd := { st.sd with airQuality := newAirQuality } }

/-- The soil block: range check, fallback `500` keyed on the stored value
being `1023`, error `ERROR_SOIL`. -/
def soilStage (st : AcqState) (newSoilMoisture : Int) : AcqState :=
  if newSoilMoisture < 0 ∨ newSoilMoisture > 1023 then
    { st with sd := { st.sd with
                        soilMoisture := if st.sd.soilMoisture = 1023 then 500 else st.sd.soilMoisture }
              err := .ERROR_SOIL, success := false }
  else { st with sd := { st.sd with soilMoisture := newSoilMoisture } }

/-- One completed run of `startSensorReading` (the body guarded by
`sensorTaskState == TASK_IDLE && millis() - lastSensorReadTime >=
SENSOR_READ_INTERVAL`): timestamp, the DHT retry block, then the four
independent channels in program order, then `isValid = true` and
`TASK_COMPLETED`, clearing the error on full success.  `ts` is the
timestamp chosen from NTP or uptime; `e0` the incoming `currentError`
(never read by the function — each block overwrites it). -/
def startSensorReading (ts : Nat) (e0 : ErrorCode) (prev : SensorData)
    (raw : SensorRaw) : SensorCycleResult :=
  let st : AcqState := { sd := { prev with timestamp := ts }, err := e0, success := true }
  let st := dhtStage st raw.dhtReads
  let st := ldrStage st raw.newLdrValue
  let st := rainStage st raw.newRainValue
  let st := airStage st raw.newAirQuality
  let st := soilStage st raw.newSoilMoisture
  { data := { st.sd with isValid := true }
    currentError := if st.success then .ERROR_NONE else st.err
    success := st.success
    sensorTaskState := .TASK_COMPLETED }

/-- State of the watering task: `wateringTaskState`, the statics
`wateringDisplayInitialized`, `pumpActive`, `pumpStartTime` of
`continueWatering`, and the PUMP output pin. -/
structure WState where
  task : TaskState
  displayInit : Bool
  pumpActive : Bool
  pumpOn : Bool
  pumpStartTime : Nat
deriving DecidableEq, Repr

/-- Watering state at boot: task idle, statics false, PUMP driven LOW in
`setup()`. -/
def WState.init : WState :=
  { task := .TASK_IDLE, displayInit := false, pumpActive := false
    pumpOn := false, pumpStartTime := 0 }

/-- `startWatering()`: from idle, when the stored soil moisture is below
`SOIL_THRESHOLD`, either complete at once with the pump off (heavy rain) or
move to `TASK_RUNNING`. -/
def startWatering (sd : SensorData) (s : WState) : WState :=
  if s.task = .TASK_IDLE ∧ sd.soilMoisture < SOIL_THRESHOLD then
    if sd.rainValue < HEAVY_RAIN_THRESHOLD then
      { s with pumpOn := false, task := .TASK_COMPLETED }
    else
      { s with task := .TASK_RUNNING }
  else s

/-- Tail of `continueWatering()`: the `if (pumpActive)` completion check that
re-reads soil moisture (`currentSoilMoisture = analogRead(SOILPIN)`) and
stops the pump when the re-read value is at least `SOIL_THRESHOLD` or
`millis() - pumpStartTime >= PUMP_TIME_THRESHOLD`. -/
def wateringCompletionCheck (now : Nat) (currentSoilMoisture : Int)
    (s : WState) : WState :=
  if s.pumpActive then
    if currentSoilMoisture ≥ SOIL_THRESHOLD ∨
        now - s.pumpStartTime ≥ PUMP_TIME_THRESHOLD then
      { s with pumpOn := false, pumpActive := false
               task := .TASK_COMPLETED, displayInit := false }
    else s
  else s

/-- `continueWatering()`: a no-op unless `TASK_RUNNING`; on the first call
the initialisation block picks the partial arm (`rainValue <
LIGHT_RAIN_THRESHOLD && soilMoisture < PARTIAL_SOIL_THRESHOLD`), the full
arm (`rainValue >= LIGHT_RAIN_THRESHOLD`) — both switch the pump on and
record `pumpStartTime = millis()` — or returns early with the pump off
(light-rain message).  Control then falls into the completion check. -/
def continueWatering (now : Nat) (sd : SensorData)
    (currentSoilMoisture : Int) (s : WState) : WState :=
  if s.task ≠ .TASK_RUNNING then s
  else if s.displayInit = false then
    if sd.rainValue < LIGHT_RAIN_THRESHOLD ∧
        sd.soilMoisture < PARTIAL_SOIL_THRESHOLD then
      wateringCompletionCheck now currentSoilMoisture
        { s with pumpActive := true, pumpOn := true
                 pumpStartTime := now, displayInit := true }
    else if sd.rainValue ≥ LIGHT_RAIN_THRESHOLD then
      wateringCompletionCheck now currentSoilMoisture
        { s with pumpActive := true, pumpOn := true
                 pumpStartTime := now, displayInit := true }
    else
      { s with pumpActive := false, pumpOn := false
               task := .TASK_COMPLETED, displayInit := false }
  else
    wateringCompletionCheck now currentSoilMoisture s

/-- The `STATE_EVALUATE_WATERING` arm of `loop()` restricted to the watering
state: `startWatering()` then, if running, `continueWatering()`; a completed
or failed outcome is consumed back to idle. -/
def wateringArm (now : Nat) (sd : SensorData) (currentSoilMoisture : Int)
    (s : WState) : WState :=
  let s1 := startWatering sd s
  if s1.task = .TASK_RUNNING then
    continueWatering now sd currentSoilMoisture s1
  else if s1.task = .TASK_COMPLETED then { s1 with task := .TASK_IDLE }
  else if s1.task = .TASK_FAILED then { s1 with task := .TASK_IDLE }
  else s1

/-- One watering-arm step with arbitrary per-tick inputs. -/
def WStep (s t : WState) : Prop :=
  ∃ now sd currentSoilMoisture, t = wateringArm now sd currentSoilMoisture s

/-- Watering states reachable from boot through watering-arm steps. -/
def WReach (s : WState) : Prop :=
  Relation.ReflTransGen WStep WState.init s

/-- Structural invariant of the watering task: whenever the task is
`TASK_RUNNING` after a whole arm step, the initialisation block has run. -/
def WInv (s : WState) : Prop :=
  s.task = .TASK_RUNNING → s.displayInit = true

end FW

namespace Ard

/-- `SOIL_LOW` of `src/arduino/IoT_Pertanian.ino`. -/
def SOIL_LOW : Int := 200

/-- `RAIN_LOW` of `src/arduino/IoT_Pertanian.ino`. -/
def RAIN_LOW : Int := 990

/-- `RAIN_MEDIUM` of `src/arduino/IoT_Pertanian.ino`. -/
def RAIN_MEDIUM : Int := 920

/-- `MAX_PUMP_DURATION` (ms) of `src/arduino/IoT_Pertanian.ino`. -/
def MAX_PUMP_DURATION : Nat := 30000

/-- The slice of the arduino variant's `sensorData` consumed by
`controlWatering`. -/
structure ASensor where
  soilMoisture : Int
  rainValue : Int
deriving DecidableEq, Repr

/-- Pump state of the arduino variant: `isPumpActive`, `pumpStartTime` and
the PUMP output pin. -/
structure PumpState where
  isPumpActive : Bool
  pumpOn : Bool
  pumpStartTime : Nat
deriving DecidableEq, Repr

/-- `controlWatering()` of `src/arduino/IoT_Pertanian.ino`: while active,
stop when the stored soil moisture is strictly above `SOIL_LOW` or the
elapsed time strictly exceeds `MAX_PUMP_DURATION`; while inactive and the
soil is dry, skip under heavy rain, otherwise start partial or full
watering. -/
def controlWatering (now : Nat) (sd : ASensor) (s : PumpState) : PumpState :=
  if s.isPumpActive then
    if sd.soilMoisture > SOIL_LOW ∨ now - s.pumpStartTime > MAX_PUMP_DURATION then
      { s with pumpOn := false, isPumpActive := false }
    else s
  else if sd.soilMoisture < SOIL_LOW then
    if sd.rainValue < RAIN_MEDIUM then s
    else if sd.rainValue < RAIN_LOW then
      { s with pumpOn := true, isPumpActive := true, pumpStartTime := now }
    else
      { s with pumpOn := true, isPumpActive := true, pumpStartTime := now }
  else s

end Ard

namespace FW

/-- Global firmware state threaded through `loop()`: the main state machine,
the single `currentError`, the per-task states, the shared `sensorData`,
the watering state and the upload failure counter.  Timer variables
(`last...Time`) are abstracted into per-tick oracle flags. -/
structure GState where
  currentState : SystemState
  currentError : ErrorCode
  lastDisplayedError : ErrorCode
  sensorTask : TaskState
  dbTask : TaskState
  displayTask : TaskState
  watering : WState
  sensor : SensorData
  dataTransmissionErrors : Nat
deriving DecidableEq, Repr

/-- Oracle inputs consumed by one pass of `loop()`: timer expirations,
hardware reads, WiFi and HTTP outcomes. -/
structure TickInputs where
  now : Nat
  epochTs : Nat
  sensorDue : Bool
  sendDue : Bool
  lcdDue : Bool
  raw : SensorRaw
  curSoil : Int
  wifiConnected : Bool
  reconnectOk : Bool
  httpStatus : Int
  httpTimedOut : Bool
  errTimeout : Bool
  dbRetryDue : Bool

/-- `checkWiFi()`: reports whether the link is (re)established; a successful
reconnect from a disconnected state clears `currentError`. -/
def checkWiFi (i : TickInputs) (s : GState) : Bool × GState :=
  if i.wifiConnected then (true, s)
  else if i.reconnectOk then (true, { s with currentError := .ERROR_NONE })
  else (false, s)

/-- `startDatabaseConnection()`: from an idle db task, fail with
`ERROR_WIFI` when the link is down, otherwise move to `TASK_RUNNING`. -/
def startDatabaseConnection (i : TickInputs) (s : GState) : GState :=
  if s.dbTask = .TASK_IDLE then
    let c := checkWiFi i s
    if c.1 = false then
      { c.2 with currentError := .ERROR_WIFI, dbTask := .TASK_FAILED }
    else { c.2 with dbTask := .TASK_RUNNING }
  else s

/-- The guarded call of `startSensorReading()` from `loop()`. -/
def startSensorReadingG (i : TickInputs) (s : GState) : GState :=
  if s.sensorTask = .TASK_IDLE ∧ i.sensorDue then
    let r := startSensorReading i.epochTs s.currentError s.sensor i.raw
    { s with sensor := r.data, currentError := r.currentError
             sensorTask := r.sensorTaskState }
  else s

/-- `startDataUpload()`: from an idle db task on cadence, fail with
`ERROR_WIFI` without transmitting when the link is down; otherwise the HTTP
POST completes synchronously — status 200 resets the consecutive-failure
counter and completes, anything else fails with `ERROR_SERVER`. -/
def startDataUpload (i : TickInputs) (s : GState) : GState :=
  if s.dbTask = .TASK_IDLE ∧ i.sendDue then
    let c := checkWiFi i s
    if c.1 = false then
      { c.2 with currentError := .ERROR_WIFI, dbTask := .TASK_FAILED }
    else if i.httpStatus = 200 then
      { c.2 with dataTransmissionErrors := 0, dbTask := .TASK_COMPLETED }
    else
      { c.2 with dbTask := .TASK_FAILED, currentError := .ERROR_SERVER }
  else s

/-- `continueDataUpload()`: while the db task is running, a timeout forces
`TASK_FAILED` with `ERROR_SERVER`. -/
def continueDataUpload (i : TickInputs) (s : GState) : GState :=
  if s.dbTask = .TASK_RUNNING then
    if i.httpTimedOut then
      { s with dbTask := .TASK_FAILED, currentError := .ERROR_SERVER }
    else s
  else s

/-- `updateDisplay()`: renders and marks the display task completed; the LCD
text itself is not modelled. -/
def updateDisplay (i : TickInputs) (s : GState) : GState :=
  if s.displayTask = .TASK_IDLE ∧ i.lcdDue then
    { s with displayTask := .TASK_COMPLETED }
  else s

/-- The `switch (currentError)` recovery block of `handleError()`: WiFi
reconnect clears the error on success, the DB branch retries the database
connection on its own cadence, sensor errors just wait for the next cycle. -/
def recoveryRemedy (i : TickInputs) (s : GState) : GState :=
  match s.currentError with
  | .ERROR_WIFI =>
    let c := checkWiFi i s
    if c.1 then { c.2 with currentError := .ERROR_NONE } else c.2
  | .ERROR_DB =>
    if i.dbRetryDue then
      let s1 := startDatabaseConnection i s
      if s1.dbTask = .TASK_COMPLETED then
        { s1 with currentError := .ERROR_NONE }
      else s1
    else s
  | _ => s

/-- `handleError()`: records the displayed error; after the display timeout
runs the type-specific recovery remedy and always returns the state machine
to `STATE_READ_SENSORS`. -/
def handleError (i : TickInputs) (s : GState) : GState :=
  let s := if s.currentError ≠ s.lastDisplayedError then
    { s with lastDisplayedError := s.currentError } else s
  if i.errTimeout then
    { recoveryRemedy i s with currentState := .STATE_READ_SENSORS }
  else s

/-- The `switch (currentState)` state machine at the tail of `loop()`. -/
def stateMachine (i : TickInputs) (s : GState) : GState :=
  match s.currentState with
  | .STATE_INIT => { s with currentState := .STATE_READ_SENSORS }
  | .STATE_READ_SENSORS =>
    if s.sensorTask = .TASK_COMPLETED then
      { s with sensorTask := .TASK_IDLE
               currentState :=
                 if s.sensor.soilMoisture < SOIL_THRESHOLD then
                   .STATE_EVALUATE_WATERING
                 else .STATE_DISPLAY_DATA }
    else if s.sensorTask = .TASK_FAILED then
      { s with sensorTask := .TASK_IDLE
               lastDisplayedError := s.currentError
               currentState := .STATE_DISPLAY_DATA }
    else s
  | .STATE_EVALUATE_WATERING =>
    let w1 := startWatering s.sensor s.watering
    if w1.task = .TASK_RUNNING then
      { s with watering := continueWatering i.now s.sensor i.curSoil w1 }
    else if w1.task = .TASK_COMPLETED then
      { s with watering := { w1 with task := .TASK_IDLE }
               currentState := .STATE_DISPLAY_DATA }
    else if w1.task = .TASK_FAILED then
      { s with watering := { w1 with task := .TASK_IDLE }
               currentError := .ERROR_PUMP }
    else { s with watering := w1 }
  | .STATE_WATERING =>
    let w1 := continueWatering i.now s.sensor i.curSoil s.watering
    if w1.task = .TASK_COMPLETED then
      { s with watering := { w1 with task := .TASK_IDLE }
               currentState := .STATE_DISPLAY_DATA }
    else if w1.task = .TASK_FAILED then
      { s with watering := { w1 with task := .TASK_IDLE }
               currentError := .ERROR_PUMP }
    else { s with watering := w1 }
  | .STATE_DISPLAY_DATA =>
    if i.sensorDue then { s with currentState := .STATE_READ_SENSORS } else s
  | .STATE_SEND_DATA =>
    if s.dbTask = .TASK_RUNNING then continueDataUpload i s
    else if s.dbTask = .TASK_COMPLETED then
      { s with dbTask := .TASK_IDLE, currentState := .STATE_DISPLAY_DATA }
    else if s.dbTask = .TASK_FAILED then
      let s := { s with dbTask := .TASK_IDLE
                        dataTransmissionErrors := s.dataTransmissionErrors + 1 }
      let s := if s.dataTransmissionErrors ≥ 3 ∧ i.dbRetryDue then
        startDatabaseConnection i s else s
      { s with currentState := .STATE_DISPLAY_DATA }
    else s
  | .STATE_ERROR => handleError i s

/-- One whole pass of `loop()`: watchdog stroke, error handling when an
error is active, the three cadence-guarded task starters, then the state
machine. -/
def loopStep (i : TickInputs) (s : GState) : GState :=
  let s := if s.currentError ≠ .ERROR_NONE then handleError i s else s
  let s := if i.sensorDue then startSensorReadingG i s else s
  let s := if i.sendDue then startDataUpload i s else s
  let s := if i.lcdDue then updateDisplay i s else s
  stateMachine i s

/-- One loop pass with arbitrary oracle inputs. -/
def GStep (s t : GState) : Prop := ∃ i, t = loopStep i s

/-- Global states reachable from a post-`setup()` state (which always
leaves `currentState = STATE_READ_SENSORS`). -/
def GReach (s0 s : GState) : Prop := Relation.ReflTransGen GStep s0 s

/-- The guard under which `startDataUpload()` actually attempts a
transmission cycle on a tick. -/
def uplinkAttempted (i : TickInputs) (s : GState) : Prop :=
  i.sendDue = true ∧ s.dbTask = .TASK_IDLE

/-- Step invocations observable in one pass of `loop()`, in program order. -/
inductive Action
  | stroke
  | handleErrorA
  | sensorA
  | uploadA
  | displayA
  | irrigationA
  | uploadContA
deriving DecidableEq, Repr

/-- The invocation trace of one pass of `loop()`: the watchdog stroke, the
error handler when an error is active, the three cadence-guarded starters in
program order, then the state-machine arm (irrigation control in the
watering states, upload continuation in `STATE_SEND_DATA`). -/
def tickTrace (i : TickInputs) (s : GState) : List Action :=
  [Action.stroke]
    ++ (if s.currentError ≠ .ERROR_NONE then [Action.handleErrorA] else [])
    ++ (if i.sensorDue then [Action.sensorA] else [])
    ++ (if i.sendDue then [Action.uploadA] else [])
    ++ (if i.lcdDue then [Action.displayA] else [])
    ++ (match s.currentState with
        | .STATE_EVALUATE_WATERING => [Action.irrigationA]
        | .STATE_WATERING => [Action.irrigationA]
        | .STATE_SEND_DATA => [Action.uploadContA]
        | .STATE_ERROR => [Action.handleErrorA]
        | _ => [])

end FW

namespace Server

/-- A JSON value as far as `typeof value === 'number' && !isNaN(value)` can
distinguish it: a finite number, `NaN`, a string, a boolean or `null`. -/
inductive JSVal
  | jnum (x : ℚ)
  | jnan
  | jstr
  | jbool (b : Bool)
  | jnull
deriving DecidableEq, Repr

/-- The six required field names of the ingestion endpoint. -/
inductive SensorField
  | temperature
  | humidity
  | ldrValue
  | rainValue
  | airQualityPPM
  | soilMoisture
deriving DecidableEq, Repr

/-- The `required` array of `validateSensorData`. -/
def requiredFields : List SensorField :=
  [.temperature, .humidity, .ldrValue, .rainValue, .airQualityPPM, .soilMoisture]

/-- A request body: each required field is either absent or bound to a JSON
value. -/
abbrev Body : Type := SensorField → Option JSVal

/-- The predicate `typeof value === 'number' && !isNaN(value)` applied to a
field lookup (`undefined` for an absent field is not a number). -/
def isFiniteNumber : Option JSVal → Bool
  | some (.jnum _) => true
  | _ => false

/-- `validateSensorData(data)` of the ingestion server: reject when a
required field is missing, then when any required field is not a numeric
non-NaN value. -/
def validateSensorData (data : Body) : Bool :=
  let missing := requiredFields.filter (fun f => (data f).isNone)
  if missing.length > 0 then false
  else
    let numeric := requiredFields.filter (fun f => isFiniteNumber (data f))
    numeric.length = requiredFields.length

/-- Numeric payload of a field (only consulted on validated bodies). -/
def numValue : Option JSVal → ℚ
  | some (.jnum x) => x
  | _ => 0

/-- One row of the `sensor_data` table as inserted by the POST handler. -/
structure Row where
  temperature : ℚ
  humidity : ℚ
  ldrValue : ℚ
  rainValue : ℚ
  airQualityPPM : ℚ
  soilMoisture : ℚ
deriving DecidableEq, Repr

/-- The row built from a request body by the POST handler's `values`. -/
def mkRow (data : Body) : Row :=
  { temperature := numValue (data .temperature)
    humidity := numValue (data .humidity)
    ldrValue := numValue (data .ldrValue)
    rainValue := numValue (data .rainValue)
    airQualityPPM := numValue (data .airQualityPPM)
    soilMoisture := numValue (data .soilMoisture) }

/-- The `POST /api/sensors` handler: validation failure answers 400 and
leaves the table unchanged; otherwise exactly one row is inserted and the
success JSON is answered with status 200. -/
def postApiSensors (db : List Row) (data : Body) : Nat × List Row :=
  if validateSensorData data = false then (400, db)
  else (200, db ++ [mkRow data])

end Server


open FW

/-- The watering state at boot satisfies the structural invariant. -/
theorem wInv_init : WInv WState.init := by
  intro h
  simp [WState.init] at h

set_option maxHeartbeats 1000000 in
/-- One pass of the evaluate-watering arm preserves the structural
invariant: a state left `TASK_RUNNING` has been through the initialisation
block. -/
theorem wateringArm_WInv (now : Nat) (sd : SensorData) (cur : Int) (s : WState)
    (h : WInv s) : WInv (wateringArm now sd cur s) := by
  rcases s with ⟨task, dInit, pAct, pOn, pStart⟩
  cases task <;> cases dInit <;>
    simp_all [WInv, wateringArm, startWatering, continueWatering,
      wateringCompletionCheck] <;>
    split_ifs <;> simp_all

set_option maxHeartbeats 1000000 in
/-- From any invariant state, a watering-arm pass can switch the pump from
off to on only when the stored soil moisture is strictly below
`SOIL_THRESHOLD`. -/
theorem wateringArm_pumpOn (now : Nat) (sd : SensorData) (cur : Int) (s : WState)
    (h : WInv s) (h0 : s.pumpOn = false)
    (h1 : (wateringArm now sd cur s).pumpOn = true) :
    sd.soilMoisture < SOIL_THRESHOLD := by
  by_contra hge
  rcases s with ⟨task, dInit, pAct, pOn, pStart⟩
  cases task <;> cases dInit <;>
    simp_all [WInv, wateringArm, startWatering, continueWatering,
      wateringCompletionCheck] <;>
    split_ifs at h1 <;> simp_all <;> omega

/-- Every watering state reachable from boot satisfies the structural
invariant. -/
theorem wReach_WInv (s : WState) (h : WReach s) : WInv s := by
  induction h with
  | refl => exact wInv_init
  | tail _ hstep ih =>
    obtain ⟨now, sd, cur, rfl⟩ := hstep
    exact wateringArm_WInv now sd cur _ ih

set_option maxHeartbeats 2000000 in
/-- Complete characterisation of one acquisition cycle: each independent
channel stores an in-range read as-is and otherwise applies its
sentinel-keyed fallback; `isValid` and `TASK_COMPLETED` are unconditional;
the final `currentError` is the code of the last failing stage (soil, air,
rain, light, DHT in reverse read order) or `ERROR_NONE` on full success. -/
theorem startSensorReading_spec (ts : Nat) (e0 : ErrorCode) (prev : SensorData)
    (raw : SensorRaw) :
    (startSensorReading ts e0 prev raw).data.ldrValue =
      (if raw.newLdrValue < 0 ∨ raw.newLdrValue > 1023 then
        (if prev.ldrValue = 0 then 500 else prev.ldrValue)
       else raw.newLdrValue) ∧
    (startSensorReading ts e0 prev raw).data.rainValue =
      (if raw.newRainValue < 0 ∨ raw.newRainValue > 1023 then
        (if prev.rainValue = 1023 then 1000 else prev.rainValue)
       else raw.newRainValue) ∧
    (startSensorReading ts e0 prev raw).data.airQuality =
      (if raw.newAirQuality < 0 ∨ raw.newAirQuality > 1023 then
        (if prev.airQuality = 0 then 300 else prev.airQuality)
       else raw.newAirQuality) ∧
    (startSensorReading ts e0 prev raw).data.soilMoisture =
      (if raw.newSoilMoisture < 0 ∨ raw.newSoilMoisture > 1023 then
        (if prev.soilMoisture = 1023 then 500 else prev.soilMoisture)
       else raw.newSoilMoisture) ∧
    (startSensorReading ts e0 prev raw).data.isValid = true ∧
    (startSensorReading ts e0 prev raw).sensorTaskState = .TASK_COMPLETED ∧
    (startSensorReading ts e0 prev raw).currentError =
      (if raw.newSoilMoisture < 0 ∨ raw.newSoilMoisture > 1023 then .ERROR_SOIL
       else if raw.newAirQuality < 0 ∨ raw.newAirQuality > 1023 then .ERROR_AIR
       else if raw.newRainValue < 0 ∨ raw.newRainValue > 1023 then .ERROR_RAIN
       else if raw.newLdrValue < 0 ∨ raw.newLdrValue > 1023 then .ERROR_LDR
       else if dhtTry MAX_DHT_RETRIES raw.dhtReads = none then .ERROR_DHT
       else .ERROR_NONE) := by
  unfold startSensorReading
  cases hdht : dhtTry MAX_DHT_RETRIES raw.dhtReads <;>
    by_cases h1 : raw.newLdrValue < 0 ∨ raw.newLdrValue > 1023 <;>
    by_cases h2 : raw.newRainValue < 0 ∨ raw.newRainValue > 1023 <;>
    by_cases h3 : raw.newAirQuality < 0 ∨ raw.newAirQuality > 1023 <;>
    by_cases h4 : raw.newSoilMoisture < 0 ∨ raw.newSoilMoisture > 1023 <;>
    simp [dhtStage, ldrStage, rainStage, airStage, soilStage, hdht, h1, h2, h3, h4]

/-- C1 (amended): once the pump is on, `continueWatering` forces it off and
completes the cycle at any step where the elapsed time has reached
`PUMP_TIME_THRESHOLD` or the re-read soil moisture has reached
`SOIL_THRESHOLD`; `controlWatering` of the arduino variant forces it off at
any step where the elapsed time strictly exceeds `MAX_PUMP_DURATION` or the
stored soil moisture strictly exceeds `SOIL_LOW` — so the actuator is
guaranteed off only by the first tick at `t + maxDuration`
(`continueWatering`) respectively strictly after `t + maxDuration`
(`controlWatering`), absent an earlier soil-target hit. -/
theorem c1_pump_forced_off :
    (∀ (now : Nat) (sd : SensorData) (cur : Int) (s : WState),
        s.task = .TASK_RUNNING → s.displayInit = true → s.pumpActive = true →
        PUMP_TIME_THRESHOLD ≤ now - s.pumpStartTime →
        (continueWatering now sd cur s).pumpOn = false ∧
        (continueWatering now sd cur s).task = .TASK_COMPLETED) ∧
    (∀ (now : Nat) (sd : SensorData) (cur : Int) (s : WState),
        s.task = .TASK_RUNNING → s.displayInit = true → s.pumpActive = true →
        SOIL_THRESHOLD ≤ cur →
        (continueWatering now sd cur s).pumpOn = false ∧
        (continueWatering now sd cur s).task = .TASK_COMPLETED) ∧
    (∀ (now : Nat) (sd : Ard.ASensor) (s : Ard.PumpState),
        s.isPumpActive = true → Ard.MAX_PUMP_DURATION < now - s.pumpStartTime →
        (Ard.controlWatering now sd s).pumpOn = false ∧
        (Ard.controlWatering now sd s).isPumpActive = false) ∧
    (∀ (now : Nat) (sd : Ard.ASensor) (s : Ard.PumpState),
        s.isPumpActive = true → Ard.SOIL_LOW < sd.soilMoisture →
        (Ard.controlWatering now sd s).pumpOn = false ∧
        (Ard.controlWatering now sd s).isPumpActive = false) := by
  refine ⟨?_, ?_, ?_, ?_⟩
  · intro now sd cur s h1 h2 h3 h4
    have hor : cur ≥ SOIL_THRESHOLD ∨ PUMP_TIME_THRESHOLD ≤ now - s.pumpStartTime :=
      Or.inr h4
    simp [continueWatering, wateringCompletionCheck, h1, h2, h3, hor]
  · intro now sd cur s h1 h2 h3 h4
    have hor : cur ≥ SOIL_THRESHOLD ∨ PUMP_TIME_THRESHOLD ≤ now - s.pumpStartTime :=
      Or.inl h4
    simp [continueWatering, wateringCompletionCheck, h1, h2, h3, hor]
  · intro now sd s h1 h2
    have hor : sd.soilMoisture > Ard.SOIL_LOW ∨
        now - s.pumpStartTime > Ard.MAX_PUMP_DURATION := Or.inr h2
    simp [Ard.controlWatering, h1, hor]
  · intro now sd s h1 h2
    have hor : sd.soilMoisture > Ard.SOIL_LOW ∨
        now - s.pumpStartTime > Ard.MAX_PUMP_DURATION := Or.inl h2
    simp [Ard.controlWatering, h1, hor]

/-- Witness for C1: concrete timeout and soil-target completions in both
firmware variants. -/
theorem c1_witness :
    ((continueWatering 180000 ⟨25, 50, 500, 900, 300, 150, true, 0⟩ 50
        ⟨.TASK_RUNNING, true, true, true, 0⟩).pumpOn = false ∧
      (continueWatering 180000 ⟨25, 50, 500, 900, 300, 150, true, 0⟩ 50
        ⟨.TASK_RUNNING, true, true, true, 0⟩).task = .TASK_COMPLETED) ∧
    ((continueWatering 1 ⟨25, 50, 500, 900, 300, 150, true, 0⟩ 250
        ⟨.TASK_RUNNING, true, true, true, 0⟩).pumpOn = false ∧
      (continueWatering 1 ⟨25, 50, 500, 900, 300, 150, true, 0⟩ 250
        ⟨.TASK_RUNNING, true, true, true, 0⟩).task = .TASK_COMPLETED) ∧
    ((Ard.controlWatering 30001 ⟨0, 930⟩ ⟨true, true, 0⟩).pumpOn = false ∧
      (Ard.controlWatering 30001 ⟨0, 930⟩ ⟨true, true, 0⟩).isPumpActive = false) ∧
    ((Ard.controlWatering 1 ⟨300, 930⟩ ⟨true, true, 0⟩).pumpOn = false ∧
      (Ard.controlWatering 1 ⟨300, 930⟩ ⟨true, true, 0⟩).isPumpActive = false) :=
  ⟨c1_pump_forced_off.1 180000 _ 50 _ rfl rfl rfl (by decide),
   c1_pump_forced_off.2.1 1 _ 250 _ rfl rfl rfl (by decide),
   c1_pump_forced_off.2.2.1 30001 _ _ rfl (by decide),
   c1_pump_forced_off.2.2.2 1 _ _ rfl (by decide)⟩

/-- C1 counterexample: with activation at `t = 0`, a `controlWatering` step
at exactly `t + MAX_PUMP_DURATION` with bone-dry soil leaves the pump on —
the actuator is not driven off by `t + maxDuration`, only strictly after
it. -/
theorem c1_counterexample :
    (Ard.controlWatering Ard.MAX_PUMP_DURATION ⟨0, 930⟩ ⟨true, true, 0⟩).pumpOn = true ∧
    Ard.MAX_PUMP_DURATION - 0 = Ard.MAX_PUMP_DURATION ∧
    (0 : Int) < Ard.SOIL_LOW := by decide

/-- C2: the watering entry path of `startWatering` is taken only when the
stored soil moisture is strictly below `SOIL_THRESHOLD`; from any reachable
watering state, one pass of the evaluate-watering arm can switch the pump
from off to on only when the stored soil moisture is strictly below
`SOIL_THRESHOLD`; and `controlWatering` of the arduino variant can switch
the pump on only when the soil moisture is strictly below `SOIL_LOW` —
all regardless of the rain value. -/
theorem c2_pump_only_when_dry :
    (∀ (sd : SensorData) (s : WState),
        s.task = .TASK_IDLE → SOIL_THRESHOLD ≤ sd.soilMoisture →
        startWatering sd s = s) ∧
    (∀ (now : Nat) (sd : SensorData) (cur : Int) (s : WState),
        WReach s → s.pumpOn = false →
        (wateringArm now sd cur s).pumpOn = true →
        sd.soilMoisture < SOIL_THRESHOLD) ∧
    (∀ (now : Nat) (sd : Ard.ASensor) (s : Ard.PumpState),
        s.pumpOn = false → (Ard.controlWatering now sd s).pumpOn = true →
        sd.soilMoisture < Ard.SOIL_LOW) := by
  refine ⟨?_, ?_, ?_⟩
  · intro sd s h1 h2
    unfold startWatering
    rw [if_neg]
    rintro ⟨-, hlt⟩
    omega
  · intro now sd cur s hreach h0 h1
    exact wateringArm_pumpOn now sd cur s (wReach_WInv s hreach) h0 h1
  · intro now sd s h0 h1
    by_contra hge
    rcases s with ⟨pAct, pOn, pStart⟩
    cases pAct <;> simp_all [Ard.controlWatering] <;> split_ifs at h1 <;>
      simp_all <;> omega

/-- Witness for C2: a wet-soil idle state is untouched; a pump activation
from boot implies the stored soil reading was dry in both variants. -/
theorem c2_witness :
    startWatering ⟨25, 50, 500, 900, 300, 500, true, 0⟩ WState.init = WState.init ∧
    (⟨25, 50, 500, 995, 300, 150, true, 0⟩ : SensorData).soilMoisture < SOIL_THRESHOLD ∧
    (⟨150, 930⟩ : Ard.ASensor).soilMoisture < Ard.SOIL_LOW :=
  ⟨c2_pump_only_when_dry.1 _ _ rfl (by decide),
   c2_pump_only_when_dry.2.1 0 _ 150 WState.init Relation.ReflTransGen.refl rfl
     (by decide),
   c2_pump_only_when_dry.2.2 5 _ ⟨false, false, 0⟩ rfl (by decide)⟩
/-- C4 counterexample: a partial-arm cycle (rain 900, between the heavy and
light thresholds) started from boot with stored soil 150 completes — pump
off, task completed — as soon as the re-read soil moisture is 250, which is
still strictly below `PARTIAL_SOIL_THRESHOLD`: the completion condition
monitors `SOIL_THRESHOLD`, not the partial target. -/
theorem c4_counterexample :
    (wateringArm 0 ⟨25, 50, 500, 900, 300, 150, true, 0⟩ 250 WState.init).task =
      .TASK_COMPLETED ∧
    (wateringArm 0 ⟨25, 50, 500, 900, 300, 150, true, 0⟩ 250 WState.init).pumpOn =
      false ∧
    (250 : Int) < PARTIAL_SOIL_THRESHOLD ∧
    HEAVY_RAIN_THRESHOLD ≤ (900 : Int) ∧ (900 : Int) < LIGHT_RAIN_THRESHOLD := by
  decide

/-- C4 (amended): the partial arm (rain below `LIGHT_RAIN_THRESHOLD`, stored
soil below `PARTIAL_SOIL_THRESHOLD`) and the full arm (rain at or above
`LIGHT_RAIN_THRESHOLD`) both switch the pump on; the completion condition of
both arms monitors the re-read soil moisture against the full target
`SOIL_THRESHOLD` (or the duration cap) — `PARTIAL_SOIL_THRESHOLD` occurs
only in the partial arm's entry condition. -/
theorem c4_watering_arms :
    (∀ (now : Nat) (sd : SensorData) (cur : Int) (s : WState),
        s.task = .TASK_RUNNING → s.displayInit = false →
        sd.rainValue < LIGHT_RAIN_THRESHOLD →
        sd.soilMoisture < PARTIAL_SOIL_THRESHOLD →
        cur < SOIL_THRESHOLD →
        (continueWatering now sd cur s).pumpOn = true) ∧
    (∀ (now : Nat) (sd : SensorData) (cur : Int) (s : WState),
        s.task = .TASK_RUNNING → s.displayInit = false →
        LIGHT_RAIN_THRESHOLD ≤ sd.rainValue →
        cur < SOIL_THRESHOLD →
        (continueWatering now sd cur s).pumpOn = true) ∧
    (∀ (now : Nat) (sd : SensorData) (cur : Int) (s : WState),
        s.task = .TASK_RUNNING → s.displayInit = true → s.pumpActive = true →
        SOIL_THRESHOLD ≤ cur →
        (continueWatering now sd cur s).pumpOn = false ∧
        (continueWatering now sd cur s).task = .TASK_COMPLETED) := by
  refine ⟨?_, ?_, ?_⟩
  · intro now sd cur s h1 h2 h3 h4 h5
    have hin : sd.rainValue < LIGHT_RAIN_THRESHOLD ∧
        sd.soilMoisture < PARTIAL_SOIL_THRESHOLD := ⟨h3, h4⟩
    have hc1 : ¬ SOIL_THRESHOLD ≤ cur := not_le.mpr h5
    simp [continueWatering, wateringCompletionCheck, PUMP_TIME_THRESHOLD,
      h1, h2, hin, hc1]
  · intro now sd cur s h1 h2 h3 h4
    have hc1 : ¬ SOIL_THRESHOLD ≤ cur := not_le.mpr h4
    by_cases hin : sd.rainValue < LIGHT_RAIN_THRESHOLD ∧
        sd.soilMoisture < PARTIAL_SOIL_THRESHOLD
    · simp [continueWatering, wateringCompletionCheck, PUMP_TIME_THRESHOLD,
        h1, h2, hin, hc1]
    · simp [continueWatering, wateringCompletionCheck, PUMP_TIME_THRESHOLD,
        h1, h2, hin, h3, hc1]
  · intro now sd cur s h1 h2 h3 h4
    have hor : cur ≥ SOIL_THRESHOLD ∨ PUMP_TIME_THRESHOLD ≤ now - s.pumpStartTime :=
      Or.inl h4
    simp [continueWatering, wateringCompletionCheck, h1, h2, h3, hor]

theorem c4_witness :
    (continueWatering 7 ⟨25, 50, 500, 900, 300, 150, true, 0⟩ 150
      ⟨.TASK_RUNNING, false, false, false, 0⟩).pumpOn = true ∧
    (continueWatering 7 ⟨25, 50, 500, 995, 300, 150, true, 0⟩ 150
      ⟨.TASK_RUNNING, false, false, false, 0⟩).pumpOn = true ∧
    ((continueWatering 7 ⟨25, 50, 500, 900, 300, 150, true, 0⟩ 250
      ⟨.TASK_RUNNING, true, true, true, 0⟩).pumpOn = false ∧
     (continueWatering 7 ⟨25, 50, 500, 900, 300, 150, true, 0⟩ 250
      ⟨.TASK_RUNNING, true, true, true, 0⟩).task = .TASK_COMPLETED) :=
  ⟨c4_watering_arms.1 7 _ 150 _ rfl rfl (by decide) (by decide) (by decide),
   c4_watering_arms.2.1 7 _ 150 _ rfl rfl (by decide) (by decide),
   c4_watering_arms.2.2 7 _ 250 _ rfl rfl rfl (by decide)⟩


/-- C3 counterexample: from boot, a first cycle stores the in-range rain
reading 1023 (a last-known-good value); a second cycle with the rain read
out of range replaces it by the hard default 1000 instead of keeping the
last-known-good 1023, because the fallback is keyed on the sentinel value
1023 rather than on value history. -/
theorem c3_counterexample :
    (startSensorReading 5 .ERROR_NONE sensorData0
        ⟨[some (21, 61)], 500, 1023, 300, 150⟩).data.rainValue = 1023 ∧
    (startSensorReading 5 .ERROR_NONE sensorData0
        ⟨[some (21, 61)], 500, 1023, 300, 150⟩).currentError = .ERROR_NONE ∧
    (startSensorReading 6 .ERROR_NONE
        (startSensorReading 5 .ERROR_NONE sensorData0
          ⟨[some (21, 61)], 500, 1023, 300, 150⟩).data
        ⟨[some (21, 61)], 500, 1100, 300, 150⟩).data.rainValue = 1000 ∧
    (startSensorReading 6 .ERROR_NONE
        (startSensorReading 5 .ERROR_NONE sensorData0
          ⟨[some (21, 61)], 500, 1023, 300, 150⟩).data
        ⟨[some (21, 61)], 500, 1100, 300, 150⟩).currentError = .ERROR_RAIN ∧
    (1000 : Int) ≠ 1023 := by decide

/-- C3 (amended): an in-range read is stored as-is on every channel; an
out-of-range read keeps the previously stored value unless it equals a
per-channel sentinel (0 for light and air quality, 1023 for rain and soil),
in which case a per-channel default (500, 300, 1000, 500 respectively) is
substituted; each out-of-range channel writes its specific error code into
the single `currentError`, later channels in read order overwriting earlier
ones, so after the cycle `currentError` is the code of the last failing
channel. -/
theorem c3_channel_fallbacks :
    ∀ (ts : Nat) (e0 : ErrorCode) (prev : SensorData) (raw : SensorRaw),
    (¬(raw.newLdrValue < 0 ∨ raw.newLdrValue > 1023) →
      (startSensorReading ts e0 prev raw).data.ldrValue = raw.newLdrValue) ∧
    (¬(raw.newRainValue < 0 ∨ raw.newRainValue > 1023) →
      (startSensorReading ts e0 prev raw).data.rainValue = raw.newRainValue) ∧
    (¬(raw.newAirQuality < 0 ∨ raw.newAirQuality > 1023) →
      (startSensorReading ts e0 prev raw).data.airQuality = raw.newAirQuality) ∧
    (¬(raw.newSoilMoisture < 0 ∨ raw.newSoilMoisture > 1023) →
      (startSensorReading ts e0 prev raw).data.soilMoisture = raw.newSoilMoisture) ∧
    ((raw.newLdrValue < 0 ∨ raw.newLdrValue > 1023) →
      (startSensorReading ts e0 prev raw).data.ldrValue =
        (if prev.ldrValue = 0 then 500 else prev.ldrValue)) ∧
    ((raw.newRainValue < 0 ∨ raw.newRainValue > 1023) →
      (startSensorReading ts e0 prev raw).data.rainValue =
        (if prev.rainValue = 1023 then 1000 else prev.rainValue)) ∧
    ((raw.newAirQuality < 0 ∨ raw.newAirQuality > 1023) →
      (startSensorReading ts e0 prev raw).data.airQuality =
        (if prev.airQuality = 0 then 300 else prev.airQuality)) ∧
    ((raw.newSoilMoisture < 0 ∨ raw.newSoilMoisture > 1023) →
      (startSensorReading ts e0 prev raw).data.soilMoisture =
        (if prev.soilMoisture = 1023 then 500 else prev.soilMoisture)) ∧
    ((raw.newSoilMoisture < 0 ∨ raw.newSoilMoisture > 1023) →
      (startSensorReading ts e0 prev raw).currentError = .ERROR_SOIL) ∧
    (¬(raw.newSoilMoisture < 0 ∨ raw.newSoilMoisture > 1023) →
      (raw.newAirQuality < 0 ∨ raw.newAirQuality > 1023) →
      (startSensorReading ts e0 prev raw).currentError = .ERROR_AIR) ∧
    (¬(raw.newSoilMoisture < 0 ∨ raw.newSoilMoisture > 1023) →
      ¬(raw.newAirQuality < 0 ∨ raw.newAirQuality > 1023) →
      (raw.newRainValue < 0 ∨ raw.newRainValue > 1023) →
      (startSensorReading ts e0 prev raw).currentError = .ERROR_RAIN) ∧
    (¬(raw.newSoilMoisture < 0 ∨ raw.newSoilMoisture > 1023) →
      ¬(raw.newAirQuality < 0 ∨ raw.newAirQuality > 1023) →
      ¬(raw.newRainValue < 0 ∨ raw.newRainValue > 1023) →
      (raw.newLdrValue < 0 ∨ raw.newLdrValue > 1023) →
      (startSensorReading ts e0 prev raw).currentError = .ERROR_LDR) := by
  intro ts e0 prev raw
  obtain ⟨hl, hr, ha, hs, hv, ht, he⟩ := startSensorReading_spec ts e0 prev raw
  refine ⟨?_, ?_, ?_, ?_, ?_, ?_, ?_, ?_, ?_, ?_, ?_, ?_⟩
  · intro h; rw [hl, if_neg h]
  · intro h; rw [hr, if_neg h]
  · intro h; rw [ha, if_neg h]
  · intro h; rw [hs, if_neg h]
  · intro h; rw [hl, if_pos h]
  · intro h; rw [hr, if_pos h]
  · intro h; rw [ha, if_pos h]
  · intro h; rw [hs, if_pos h]
  · intro h4; rw [he, if_pos h4]
  · intro h4 h3; rw [he, if_neg h4, if_pos h3]
  · intro h4 h3 h2; rw [he, if_neg h4, if_neg h3, if_pos h2]
  · intro h4 h3 h2 h1; rw [he, if_neg h4, if_neg h3, if_neg h2, if_pos h1]

theorem c3_witness :
    (startSensorReading 5 .ERROR_NONE sensorData0
        ⟨[some (21, 61)], 500, 700, 300, 150⟩).data.rainValue = 700 ∧
    (startSensorReading 5 .ERROR_NONE
        ⟨20, 60, 500, 800, 300, 150, true, 0⟩
        ⟨[some (21, 61)], 500, 1100, 300, 150⟩).data.rainValue = 800 ∧
    (startSensorReading 5 .ERROR_NONE
        ⟨20, 60, 500, 800, 300, 150, true, 0⟩
        ⟨[some (21, 61)], 2000, 1100, 300, 150⟩).currentError = .ERROR_RAIN :=
  ⟨(c3_channel_fallbacks 5 .ERROR_NONE sensorData0
      ⟨[some (21, 61)], 500, 700, 300, 150⟩).2.1 (by decide),
   ((c3_channel_fallbacks 5 .ERROR_NONE
      ⟨20, 60, 500, 800, 300, 150, true, 0⟩
      ⟨[some (21, 61)], 500, 1100, 300, 150⟩).2.2.2.2.2.1 (by decide)).trans
     (by decide),
   (c3_channel_fallbacks 5 .ERROR_NONE
      ⟨20, 60, 500, 800, 300, 150, true, 0⟩
      ⟨[some (21, 61)], 2000, 1100, 300, 150⟩).2.2.2.2.2.2.2.2.2.2.1
     (by decide) (by decide) (by decide)⟩

/-- C5 counterexample: from boot — when no channel has ever produced a
non-error reading — a cycle in which every DHT retry fails and every
independent channel reads out of range still ends with `isValid = true`
(and the channel error recorded), contradicting the claim that `valid`
requires at least one non-error reading on every channel. -/
theorem c5_counterexample :
    sensorData0.isValid = false ∧
    (startSensorReading 5 .ERROR_NONE sensorData0
        ⟨[none, none, none], -1, -1, -1, -1⟩).data.isValid = true ∧
    (startSensorReading 5 .ERROR_NONE sensorData0
        ⟨[none, none, none], -1, -1, -1, -1⟩).currentError = .ERROR_SOIL ∧
    (startSensorReading 5 .ERROR_NONE sensorData0
        ⟨[none, none, none], -1, -1, -1, -1⟩).success = false := by decide

/-- C5 (amended): every completed acquisition cycle unconditionally sets
`SensorReading.isValid = true` and `TASK_COMPLETED`, regardless of the
incoming state, of DHT retry exhaustion, and of out-of-range channels (the
source comments this: always mark as valid since default or previous values
are used when sensors fail). -/
theorem c5_isValid_unconditional :
    ∀ (ts : Nat) (e0 : ErrorCode) (prev : SensorData) (raw : SensorRaw),
      (startSensorReading ts e0 prev raw).data.isValid = true ∧
      (startSensorReading ts e0 prev raw).sensorTaskState = .TASK_COMPLETED := by
  intro ts e0 prev raw
  obtain ⟨-, -, -, -, hv, ht, -⟩ := startSensorReading_spec ts e0 prev raw
  exact ⟨hv, ht⟩

/-- C6 counterexample: with the higher-severity `ERROR_SERVER`
(`RemoteService`) active, an acquisition cycle whose only failure is the
light channel ends with `currentError = ERROR_LDR` (`SensorLight`), a
strictly lower severity in the enumeration order — the lower-severity
failure overwrote the active higher-severity error. -/
theorem c6_counterexample :
    (startSensorReading 5 .ERROR_SERVER
        ⟨20, 60, 500, 800, 300, 150, true, 0⟩
        ⟨[some (21, 61)], 2000, 500, 300, 150⟩).currentError = .ERROR_LDR ∧
    sev .ERROR_LDR < sev .ERROR_SERVER := by decide

/-- C6 (amended): the acquisition task records error codes unconditionally
— the resulting `currentError` is a function of the cycle's read outcomes
alone, independent of whatever error was active before (so a lower-severity
failure does overwrite an active higher-severity error, and each failing
channel overwrites the code of earlier ones in read order). -/
theorem c6_error_overwrite :
    (∀ (ts : Nat) (e0 e1 : ErrorCode) (prev : SensorData) (raw : SensorRaw),
        (startSensorReading ts e0 prev raw).currentError =
        (startSensorReading ts e1 prev raw).currentError) ∧
    (∀ (ts : Nat) (e0 : ErrorCode) (prev : SensorData) (raw : SensorRaw),
        (raw.newLdrValue < 0 ∨ raw.newLdrValue > 1023) →
        ¬(raw.newRainValue < 0 ∨ raw.newRainValue > 1023) →
        ¬(raw.newAirQuality < 0 ∨ raw.newAirQuality > 1023) →
        ¬(raw.newSoilMoisture < 0 ∨ raw.newSoilMoisture > 1023) →
        (startSensorReading ts e0 prev raw).currentError = .ERROR_LDR) ∧
    sev .ERROR_LDR < sev .ERROR_SERVER := by
  refine ⟨?_, ?_, by decide⟩
  · intro ts e0 e1 prev raw
    obtain ⟨-, -, -, -, -, -, he0⟩ := startSensorReading_spec ts e0 prev raw
    obtain ⟨-, -, -, -, -, -, he1⟩ := startSensorReading_spec ts e1 prev raw
    rw [he0, he1]
  · intro ts e0 prev raw h1 h2 h3 h4
    obtain ⟨-, -, -, -, -, -, he⟩ := startSensorReading_spec ts e0 prev raw
    rw [he, if_neg h4, if_neg h3, if_neg h2, if_pos h1]

theorem c6_witness :
    (startSensorReading 5 .ERROR_SERVER
        ⟨20, 60, 500, 800, 300, 150, true, 0⟩
        ⟨[some (21, 61)], 2000, 500, 300, 150⟩).currentError = .ERROR_LDR :=
  c6_error_overwrite.2.1 5 .ERROR_SERVER _ _ (by decide) (by decide) (by decide)
    (by decide)


set_option maxHeartbeats 1000000 in
/-- The recovery switch never touches the failure counter, never changes the
main state, and cannot revive a failed db task. -/
theorem recoveryRemedy_preserves (i : TickInputs) (s : GState) :
    (recoveryRemedy i s).currentState = s.currentState ∧
    (s.dbTask = .TASK_FAILED → (recoveryRemedy i s).dbTask = .TASK_FAILED) ∧
    (recoveryRemedy i s).dataTransmissionErrors = s.dataTransmissionErrors := by
  rcases s with ⟨cs, ce, lde, st, dt, dpt, w, sen, dte⟩
  cases ce <;>
    simp_all [recoveryRemedy, startDatabaseConnection, checkWiFi] <;>
    split_ifs <;> simp_all

/-- `handleError` either redirects the main state to `STATE_READ_SENSORS` or
leaves it unchanged, keeps a failed db task failed and never touches the
failure counter. -/
theorem handleError_preserves (i : TickInputs) (s : GState) :
    ((handleError i s).currentState = .STATE_READ_SENSORS ∨
      (handleError i s).currentState = s.currentState) ∧
    (s.dbTask = .TASK_FAILED → (handleError i s).dbTask = .TASK_FAILED) ∧
    (handleError i s).dataTransmissionErrors = s.dataTransmissionErrors := by
  unfold handleError
  split_ifs with h1 h2
  · obtain ⟨ha, hb, hc⟩ := recoveryRemedy_preserves i
      { s with lastDisplayedError := s.currentError }
    exact ⟨Or.inl rfl, fun h => hb h, hc⟩
  · exact ⟨Or.inr rfl, fun h => h, rfl⟩
  · obtain ⟨ha, hb, hc⟩ := recoveryRemedy_preserves i s
    exact ⟨Or.inl rfl, fun h => hb h, hc⟩
  · exact ⟨Or.inr rfl, fun h => h, rfl⟩



/-- The sensor starter never touches the main state, the db task or the
failure counter. -/
theorem startSensorReadingG_preserves (i : TickInputs) (s : GState) :
    (startSensorReadingG i s).currentState = s.currentState ∧
    (startSensorReadingG i s).dbTask = s.dbTask ∧
    (startSensorReadingG i s).dataTransmissionErrors = s.dataTransmissionErrors := by
  unfold startSensorReadingG
  split_ifs <;> simp_all

/-- The upload starter never touches the main state; it is a no-op on a
failed db task (its guard requires `TASK_IDLE`). -/
theorem startDataUpload_preserves (i : TickInputs) (s : GState) :
    (startDataUpload i s).currentState = s.currentState ∧
    (s.dbTask = .TASK_FAILED → (startDataUpload i s).dbTask = .TASK_FAILED) ∧
    (s.dbTask = .TASK_FAILED →
      (startDataUpload i s).dataTransmissionErrors = s.dataTransmissionErrors) := by
  unfold startDataUpload checkWiFi
  split_ifs <;> simp_all

/-- The display task never touches the main state, the db task or the
failure counter. -/
theorem updateDisplay_preserves (i : TickInputs) (s : GState) :
    (updateDisplay i s).currentState = s.currentState ∧
    (updateDisplay i s).dbTask = s.dbTask ∧
    (updateDisplay i s).dataTransmissionErrors = s.dataTransmissionErrors := by
  unfold updateDisplay
  split_ifs <;> simp_all

set_option maxHeartbeats 1000000 in
/-- Outside `STATE_SEND_DATA`, the main state machine never enters
`STATE_SEND_DATA`, keeps a failed db task failed and never touches the
failure counter. -/
theorem stateMachine_preserves (i : TickInputs) (s : GState)
    (h : s.currentState ≠ .STATE_SEND_DATA) :
    (stateMachine i s).currentState ≠ .STATE_SEND_DATA ∧
    (s.dbTask = .TASK_FAILED → (stateMachine i s).dbTask = .TASK_FAILED) ∧
    (stateMachine i s).dataTransmissionErrors = s.dataTransmissionErrors := by
  rcases hcs : s.currentState
  case STATE_SEND_DATA => exact absurd hcs h
  case STATE_ERROR =>
    obtain ⟨ha, hb, hc⟩ := handleError_preserves i s
    refine ⟨?_, ?_, ?_⟩
    · simp only [stateMachine, hcs]
      rcases ha with ha | ha <;> rw [ha] <;> simp [hcs]
    · simp only [stateMachine, hcs]; exact hb
    · simp only [stateMachine, hcs]; exact hc
  all_goals
    simp_all only [stateMachine]
  all_goals
    first
    | (split_ifs <;> simp_all)
    | simp_all

/-- A whole loop pass from a state outside `STATE_SEND_DATA` stays outside
`STATE_SEND_DATA`. -/
theorem loopStep_no_send (i : TickInputs) (s : GState)
    (h : s.currentState ≠ .STATE_SEND_DATA) :
    (loopStep i s).currentState ≠ .STATE_SEND_DATA := by
  unfold loopStep
  set sA := if s.currentError ≠ .ERROR_NONE then handleError i s else s with hsA
  have hA : sA.currentState ≠ .STATE_SEND_DATA := by
    rw [hsA]; split_ifs with hc
    · obtain ⟨ha, -, -⟩ := handleError_preserves i s
      rcases ha with ha | ha <;> rw [ha] <;> simp_all
    · exact h
  set sB := if i.sensorDue then startSensorReadingG i sA else sA with hsB
  have hB : sB.currentState ≠ .STATE_SEND_DATA := by
    rw [hsB]; split_ifs with hc
    · rw [(startSensorReadingG_preserves i sA).1]; exact hA
    · exact hA
  set sC := if i.sendDue then startDataUpload i sB else sB with hsC
  have hC : sC.currentState ≠ .STATE_SEND_DATA := by
    rw [hsC]; split_ifs with hc
    · rw [(startDataUpload_preserves i sB).1]; exact hB
    · exact hB
  set sD := if i.lcdDue then updateDisplay i sC else sC with hsD
  have hD : sD.currentState ≠ .STATE_SEND_DATA := by
    rw [hsD]; split_ifs with hc
    · rw [(updateDisplay_preserves i sC).1]; exact hC
    · exact hC
  exact (stateMachine_preserves i sD hD).1

/-- A whole loop pass from a state outside `STATE_SEND_DATA` with a failed
db task keeps the db task failed and the failure counter frozen. -/
theorem loopStep_failed_frozen (i : TickInputs) (s : GState)
    (h : s.currentState ≠ .STATE_SEND_DATA) (hdb : s.dbTask = .TASK_FAILED) :
    (loopStep i s).dbTask = .TASK_FAILED ∧
    (loopStep i s).dataTransmissionErrors = s.dataTransmissionErrors := by
  unfold loopStep
  set sA := if s.currentError ≠ .ERROR_NONE then handleError i s else s with hsA
  have hA : sA.currentState ≠ .STATE_SEND_DATA ∧ sA.dbTask = .TASK_FAILED ∧
      sA.dataTransmissionErrors = s.dataTransmissionErrors := by
    rw [hsA]; split_ifs with hc
    · obtain ⟨ha, hb, hcnt⟩ := handleError_preserves i s
      refine ⟨?_, hb hdb, hcnt⟩
      rcases ha with ha | ha <;> rw [ha] <;> simp_all
    · exact ⟨h, hdb, rfl⟩
  set sB := if i.sensorDue then startSensorReadingG i sA else sA with hsB
  have hB : sB.currentState ≠ .STATE_SEND_DATA ∧ sB.dbTask = .TASK_FAILED ∧
      sB.dataTransmissionErrors = s.dataTransmissionErrors := by
    rw [hsB]; split_ifs with hc
    · obtain ⟨h1, h2, h3⟩ := startSensorReadingG_preserves i sA
      exact ⟨h1 ▸ hA.1, h2.trans hA.2.1, h3.trans hA.2.2⟩
    · exact hA
  set sC := if i.sendDue then startDataUpload i sB else sB with hsC
  have hC : sC.currentState ≠ .STATE_SEND_DATA ∧ sC.dbTask = .TASK_FAILED ∧
      sC.dataTransmissionErrors = s.dataTransmissionErrors := by
    rw [hsC]; split_ifs with hc
    · obtain ⟨h1, h2, h3⟩ := startDataUpload_preserves i sB
      exact ⟨h1 ▸ hB.1, h2 hB.2.1, (h3 hB.2.1).trans hB.2.2⟩
    · exact hB
  set sD := if i.lcdDue then updateDisplay i sC else sC with hsD
  have hD : sD.currentState ≠ .STATE_SEND_DATA ∧ sD.dbTask = .TASK_FAILED ∧
      sD.dataTransmissionErrors = s.dataTransmissionErrors := by
    rw [hsD]; split_ifs with hc
    · obtain ⟨h1, h2, h3⟩ := updateDisplay_preserves i sC
      exact ⟨h1 ▸ hC.1, h2.trans hC.2.1, h3.trans hC.2.2⟩
    · exact hC
  obtain ⟨-, h2, h3⟩ := stateMachine_preserves i sD hD.1
  exact ⟨h2 hD.2.1, h3.trans hD.2.2⟩

/-- C7: the telemetry retry logic is dead and a failed uplink is terminal —
no state reachable from a post-setup state (which is never in
`STATE_SEND_DATA`) ever enters `STATE_SEND_DATA`, the only arm that resets
`dbTaskState` to idle, increments `dataTransmissionErrors` or triggers the
threshold re-association; once `dbTaskState = TASK_FAILED`, every further
loop pass keeps it `TASK_FAILED` with the failure counter frozen, and no
uplink attempt (the guarded entry of `startDataUpload`) occurs at all. -/
theorem c7_uplink_retry_dead :
    (∀ s0 s : GState, s0.currentState ≠ .STATE_SEND_DATA → GReach s0 s →
        s.currentState ≠ .STATE_SEND_DATA) ∧
    (∀ (i : TickInputs) (s : GState),
        s.currentState ≠ .STATE_SEND_DATA → s.dbTask = .TASK_FAILED →
        (loopStep i s).dbTask = .TASK_FAILED ∧
        (loopStep i s).dataTransmissionErrors = s.dataTransmissionErrors) ∧
    (∀ (i : TickInputs) (s : GState), s.dbTask = .TASK_FAILED →
        ¬ uplinkAttempted i s) := by
  refine ⟨?_, ?_, ?_⟩
  · intro s0 s h0 hreach
    induction hreach with
    | refl => exact h0
    | tail _ hstep ih =>
      obtain ⟨i, rfl⟩ := hstep
      exact loopStep_no_send i _ ih
  · intro i s h hdb
    exact loopStep_failed_frozen i s h hdb
  · rintro i s hdb ⟨-, hidle⟩
    rw [hdb] at hidle
    cases hidle

/-- Witness for C7: a concrete failed-upload state stays failed through one
loop pass with the counter frozen and no uplink attempt. -/
theorem c7_witness :
    (loopStep
        ⟨0, 0, false, true, false, ⟨[], 0, 0, 0, 0⟩, 0, true, false, 200, false,
          false, false⟩
        ⟨.STATE_READ_SENSORS, .ERROR_NONE, .ERROR_NONE, .TASK_IDLE, .TASK_FAILED,
          .TASK_IDLE, WState.init, sensorData0, 0⟩).dbTask = .TASK_FAILED ∧
    (loopStep
        ⟨0, 0, false, true, false, ⟨[], 0, 0, 0, 0⟩, 0, true, false, 200, false,
          false, false⟩
        ⟨.STATE_READ_SENSORS, .ERROR_NONE, .ERROR_NONE, .TASK_IDLE, .TASK_FAILED,
          .TASK_IDLE, WState.init, sensorData0, 0⟩).dataTransmissionErrors = 0 ∧
    ¬ uplinkAttempted
        ⟨0, 0, false, true, false, ⟨[], 0, 0, 0, 0⟩, 0, true, false, 200, false,
          false, false⟩
        ⟨.STATE_READ_SENSORS, .ERROR_NONE, .ERROR_NONE, .TASK_IDLE, .TASK_FAILED,
          .TASK_IDLE, WState.init, sensorData0, 0⟩ ∧
    (⟨.STATE_READ_SENSORS, .ERROR_NONE, .ERROR_NONE, .TASK_IDLE, .TASK_FAILED,
        .TASK_IDLE, WState.init, sensorData0, 0⟩ : GState).currentState ≠
      .STATE_SEND_DATA :=
  ⟨(c7_uplink_retry_dead.2.1 _ _ (by decide) rfl).1,
   (c7_uplink_retry_dead.2.1 _ _ (by decide) rfl).2,
   c7_uplink_retry_dead.2.2 _ _ rfl,
   c7_uplink_retry_dead.1 _ _ (by decide) Relation.ReflTransGen.refl⟩

/-- C8 counterexample: on a tick where every cadence timer is due and the
main state is `STATE_EVALUATE_WATERING`, the invocation trace is watchdog
stroke, sensor acquisition, telemetry uplink, display, irrigation — the
telemetry uplink step strictly precedes the irrigation step, contradicting
the claimed watchdog, sensor, irrigation, telemetry, display order. -/
theorem c8_counterexample :
    FW.tickTrace
        ⟨0, 0, true, true, true, ⟨[], 0, 0, 0, 0⟩, 150, true, false, 200, false,
          false, false⟩
        ⟨.STATE_EVALUATE_WATERING, .ERROR_NONE, .ERROR_NONE, .TASK_IDLE,
          .TASK_IDLE, .TASK_IDLE, FW.WState.init, FW.sensorData0, 0⟩ =
      [.stroke, .sensorA, .uploadA, .displayA, .irrigationA] ∧
    List.Sublist [FW.Action.uploadA, FW.Action.irrigationA]
      (FW.tickTrace
        ⟨0, 0, true, true, true, ⟨[], 0, 0, 0, 0⟩, 150, true, false, 200, false,
          false, false⟩
        ⟨.STATE_EVALUATE_WATERING, .ERROR_NONE, .ERROR_NONE, .TASK_IDLE,
          .TASK_IDLE, .TASK_IDLE, FW.WState.init, FW.sensorData0, 0⟩) ∧
    ¬ List.Sublist [FW.Action.irrigationA, FW.Action.uploadA]
      (FW.tickTrace
        ⟨0, 0, true, true, true, ⟨[], 0, 0, 0, 0⟩, 150, true, false, 200, false,
          false, false⟩
        ⟨.STATE_EVALUATE_WATERING, .ERROR_NONE, .ERROR_NONE, .TASK_IDLE,
          .TASK_IDLE, .TASK_IDLE, FW.WState.init, FW.sensorData0, 0⟩) := by
  decide

/-- C8 (amended): within one pass of `loop()` the step invocations occur in
the fixed program order watchdog stroke, error handler (when an error is
active), sensor acquisition, telemetry uplink, display, and then the
state-machine arm (irrigation control when in the evaluate-watering state);
the watchdog stroke is always first. -/
theorem c8_tick_order :
    ∀ (i : FW.TickInputs) (s : FW.GState),
      s.currentState = .STATE_READ_SENSORS ∨
      s.currentState = .STATE_EVALUATE_WATERING ∨
      s.currentState = .STATE_DISPLAY_DATA →
      List.Sublist (FW.tickTrace i s)
        [.stroke, .handleErrorA, .sensorA, .uploadA, .displayA, .irrigationA] ∧
      (FW.tickTrace i s).head? = some .stroke := by
  intro i s h
  unfold FW.tickTrace
  rcases h with h | h | h <;> rw [h] <;> split_ifs <;>
    exact ⟨by decide, by decide⟩

/-- Witness for C8: a concrete all-due tick in `STATE_DISPLAY_DATA`. -/
theorem c8_witness :
    List.Sublist
      (FW.tickTrace
        ⟨0, 0, true, true, true, ⟨[], 0, 0, 0, 0⟩, 150, true, false, 200, false,
          false, false⟩
        ⟨.STATE_DISPLAY_DATA, .ERROR_NONE, .ERROR_NONE, .TASK_IDLE,
          .TASK_IDLE, .TASK_IDLE, FW.WState.init, FW.sensorData0, 0⟩)
      [.stroke, .handleErrorA, .sensorA, .uploadA, .displayA, .irrigationA] ∧
    (FW.tickTrace
        ⟨0, 0, true, true, true, ⟨[], 0, 0, 0, 0⟩, 150, true, false, 200, false,
          false, false⟩
        ⟨.STATE_DISPLAY_DATA, .ERROR_NONE, .ERROR_NONE, .TASK_IDLE,
          .TASK_IDLE, .TASK_IDLE, FW.WState.init, FW.sensorData0, 0⟩).head? =
      some .stroke :=
  c8_tick_order _ _ (Or.inr (Or.inr rfl))

/-- C10: with inverted logic and any thresholds with
`mediumThreshold < lowThreshold` — in particular the rain display call
`getSensorStatus(value, RAIN_LOW = 990, RAIN_MEDIUM = 890, true)` — the
classifier never returns MEDIUM: the MEDIUM branch needs
`value ≤ mediumThreshold` and `value > lowThreshold` at once. -/
theorem c10_inverted_status_no_medium :
    (∀ value lowThreshold mediumThreshold : Int,
        mediumThreshold < lowThreshold →
        getSensorStatus value lowThreshold mediumThreshold true ≠ "MEDIUM") ∧
    (∀ value : Int,
        getSensorStatus value FW.RAIN_LOW FW.RAIN_MEDIUM true = "LOW" ∨
        getSensorStatus value FW.RAIN_LOW FW.RAIN_MEDIUM true = "HIGH") := by
  constructor
  · intro v low med h
    unfold getSensorStatus
    split_ifs with h1 h2 <;> first | decide | omega
  · intro v
    have hred : getSensorStatus v FW.RAIN_LOW FW.RAIN_MEDIUM true =
        (if v > FW.RAIN_MEDIUM then "LOW"
         else if v > FW.RAIN_LOW then "MEDIUM" else "HIGH") := rfl
    rw [hred]
    split_ifs with h1 h2
    · exact Or.inl rfl
    · exfalso
      unfold FW.RAIN_LOW FW.RAIN_MEDIUM at *
      omega
    · exact Or.inr rfl

/-- Witness for C10: the rain thresholds are inverted and 950 is not
classified MEDIUM. -/
theorem c10_witness :
    (890 : Int) < 990 ∧ getSensorStatus 950 990 890 true ≠ "MEDIUM" :=
  ⟨by decide, c10_inverted_status_no_medium.1 950 990 890 (by decide)⟩

/-- A filter that keeps the whole length of a list kept every element. -/
theorem length_filter_eq_forall {α : Type} (p : α → Bool) :
    ∀ l : List α, (l.filter p).length = l.length → ∀ a ∈ l, p a = true := by
  intro l
  induction l with
  | nil =>
    intro _ a ha
    exact absurd ha (List.not_mem_nil a)
  | cons b t ih =>
    intro hlen a ha
    by_cases hb : p b = true
    · rw [List.filter_cons_of_pos hb] at hlen
      simp only [List.length_cons] at hlen
      rcases List.mem_cons.mp ha with rfl | hat
      · exact hb
      · exact ih (Nat.succ_injective hlen) a hat
    · exfalso
      have h1 := List.length_filter_le p t
      rw [List.filter_cons_of_neg (by simp [hb])] at hlen
      simp only [List.length_cons] at hlen
      omega

/-- `validateSensorData` accepts a body exactly when every required field is
present and bound to a numeric non-NaN value. -/
theorem validateSensorData_iff (data : Server.Body) :
    Server.validateSensorData data = true ↔
      ∀ f, Server.isFiniteNumber (data f) = true := by
  constructor
  · intro h f
    unfold Server.validateSensorData at h
    simp only [decide_eq_true_eq] at h
    split_ifs at h with hm
    have hlen := of_decide_eq_true h
    have hall := length_filter_eq_forall
      (fun f => Server.isFiniteNumber (data f)) Server.requiredFields hlen
    have hf : f ∈ Server.requiredFields := by
      cases f <;> simp [Server.requiredFields]
    exact hall f hf
  · intro h
    have hnone : ∀ f, (data f).isNone = false := by
      intro f
      have hf := h f
      cases hd : data f with
      | none => rw [hd] at hf; simp [Server.isFiniteNumber] at hf
      | some v => simp
    unfold Server.validateSensorData
    rw [if_neg]
    · simp [Server.requiredFields, h]
    · simp [Server.requiredFields, hnone]

/-- C9: the ingestion endpoint rejects with 400 and stores nothing when a
required field is missing or non-numeric (including NaN), and on a
fully-numeric body inserts exactly one row and answers success. -/
theorem c9_post_api_sensors :
    (∀ (db : List Server.Row) (data : Server.Body) (f : Server.SensorField),
        data f = none → Server.postApiSensors db data = (400, db)) ∧
    (∀ (db : List Server.Row) (data : Server.Body) (f : Server.SensorField),
        Server.isFiniteNumber (data f) = false →
        Server.postApiSensors db data = (400, db)) ∧
    (∀ (db : List Server.Row) (data : Server.Body),
        (∀ f, Server.isFiniteNumber (data f) = true) →
        Server.postApiSensors db data = (200, db ++ [Server.mkRow data])) := by
  have hfalse : ∀ (data : Server.Body) (f : Server.SensorField),
      Server.isFiniteNumber (data f) = false →
      Server.validateSensorData data = false := by
    intro data f hf
    rcases hv : Server.validateSensorData data
    · rfl
    · have := (validateSensorData_iff data).mp hv f
      rw [this] at hf
      cases hf
  refine ⟨?_, ?_, ?_⟩
  · intro db data f hf
    have hbad : Server.isFiniteNumber (data f) = false := by
      rw [hf]; rfl
    simp [Server.postApiSensors, hfalse data f hbad]
  · intro db data f hf
    simp [Server.postApiSensors, hfalse data f hf]
  · intro db data h
    have hv : Server.validateSensorData data = true :=
      (validateSensorData_iff data).mpr h
    simp [Server.postApiSensors, hv]

/-- Witness for C9: a fully-numeric body inserts one row with 200; a body
missing `temperature` and a body with NaN `humidity` are both rejected with
400 and no insert. -/
theorem c9_witness :
    Server.postApiSensors [] (fun _ => some (.jnum 1)) =
      (200, [Server.mkRow (fun _ => some (.jnum 1))]) ∧
    Server.postApiSensors []
      (fun f => if f = .temperature then none else some (.jnum 1)) = (400, []) ∧
    Server.postApiSensors []
      (fun f => if f = .humidity then some .jnan else some (.jnum 1)) = (400, []) :=
  ⟨c9_post_api_sensors.2.2 [] _ (fun f => by cases f <;> rfl),
   c9_post_api_sensors.1 [] _ .temperature (by rfl),
   c9_post_api_sensors.2.1 [] _ .humidity (by rfl)⟩

end IoTPertanian
